import Mathlib

/-!
Verification of the discovery-to-reconciliation pipeline of
`peripheral-manager-modbus` (src/code/modbus.py).

The scan document handed to `parse_modbus_peripherals` is the result of
`xmltodict.parse`: a tree of Python dicts (ordered key/value entries),
lists, and strings.  We embed that value universe as `XVal` and give the
Python operations the source uses (`[...]` subscription, `in` membership,
iteration, `.get`, `.upper()`, `.split()`, `int(...)`, `str(...)`) their
CPython semantics on this universe, raising the same exception kinds
CPython raises (`PErr`).  `parse_modbus_peripherals` is then a direct
transcription of the source, statement by statement, in the `Except PErr`
monad: an uncaught Python exception is an `Except.error`.

`manage_modbus_peripherals` (the reconciler) is embedded as a pure
function of the observed peripherals, the snapshot of local
`modbus.*` bookkeeping files, and two outcome oracles for its side
effects (reading a bookkeeping file, and the `api._cimi_delete` call);
it returns the list of create operations and delete operations issued.
-/

/-- Kinds of Python exceptions the transcribed code can raise. -/
inductive PErr
  | keyError
  | typeError
  | valueError
  | indexError
  | attributeError
deriving DecidableEq, Repr

/-- Universe of values produced by `xmltodict.parse`: strings, lists and
(ordered) dicts with string keys. -/
inductive XVal
  | s (v : String)
  | list (items : List XVal)
  | dict (entries : List (String × XVal))

mutual

/-- CPython `repr` of an `XVal` (used by `str(...)` on lists/dicts).
String escaping inside the quotes is not modelled; the documents in this
development never reach these cases. -/
def XVal.pyRepr : XVal → String
  | XVal.s t => "\x27" ++ t ++ "\x27"
  | XVal.list items => "[" ++ pyReprItems items ++ "]"
  | XVal.dict es => "\x7b" ++ pyReprEntries es ++ "\x7d"

/-- Comma-joined `repr`s of list items. -/
def pyReprItems : List XVal → String
  | [] => ""
  | [v] => XVal.pyRepr v
  | v :: rest => XVal.pyRepr v ++ ", " ++ pyReprItems rest

/-- Comma-joined `key: value` `repr`s of dict entries. -/
def pyReprEntries : List (String × XVal) → String
  | [] => ""
  | [e] => "\x27" ++ e.1 ++ "\x27: " ++ XVal.pyRepr e.2
  | e :: rest => "\x27" ++ e.1 ++ "\x27: " ++ XVal.pyRepr e.2 ++ ", " ++ pyReprEntries rest

end

/-- Python `v[k]` for a string key `k`: dict lookup (`KeyError` when the
key is missing); subscripting a string or a list with a string raises
`TypeError`. -/
def XVal.subscript : XVal → String → Except PErr XVal
  | XVal.dict es, k =>
    match es.find? (fun e => e.1 == k) with
    | some e => Except.ok e.2
    | none => Except.error PErr.keyError
  | XVal.s _, _ => Except.error PErr.typeError
  | XVal.list _, _ => Except.error PErr.typeError

/-- Sublist containment on characters: does `needle` occur inside `hay`? -/
def charSubAt : List Char → List Char → Bool
  | needle, [] => needle.isEmpty
  | needle, c :: rest => needle.isPrefixOf (c :: rest) || charSubAt needle rest

/-- Python `k in v` for a string `k`: key membership for dicts, substring
containment for strings, element equality for lists. -/
def XVal.hasMember : XVal → String → Bool
  | XVal.dict es, k => es.any (fun e => e.1 == k)
  | XVal.s t, k => charSubAt k.toList t.toList
  | XVal.list items, k =>
    items.any (fun v => match v with | XVal.s t => t == k | _ => false)

/-- Python `v == k` for a string literal `k`: true only when `v` is an
equal string (a dict or list compares unequal to a string, no error). -/
def XVal.eqStr : XVal → String → Bool
  | XVal.s t, k => t == k
  | _, _ => false

/-- Python iteration `for x in v`: a list yields its items, a dict yields
its keys (as strings), a string yields its one-character substrings. -/
def XVal.pyIter : XVal → List XVal
  | XVal.list items => items
  | XVal.dict es => es.map (fun e => XVal.s e.1)
  | XVal.s t => t.toList.map (fun c => XVal.s (String.mk [c]))

/-- Python `v.get(k)` (`dict.get`, default `None`): `some`/`none` on a
dict; any other receiver has no `get` attribute (`AttributeError`). -/
def XVal.pyGet : XVal → String → Except PErr (Option XVal)
  | XVal.dict es, k => Except.ok ((es.find? (fun e => e.1 == k)).map (fun e => e.2))
  | XVal.s _, _ => Except.error PErr.attributeError
  | XVal.list _, _ => Except.error PErr.attributeError

/-- Python `v.upper()`: uppercases a string; any other receiver has no
`upper` attribute (`AttributeError`). -/
def XVal.pyUpper : XVal → Except PErr String
  | XVal.s t => Except.ok (String.mk (t.toList.map Char.toUpper))
  | _ => Except.error PErr.attributeError

/-- Python `str(x)` where `x` is a dict-`get` result: `None` prints as
"None", a string prints as itself, other values print as their `repr`. -/
def pyStrOpt : Option XVal → String
  | none => "None"
  | some (XVal.s t) => t
  | some v => XVal.pyRepr v

/-- Python `str(p)` where `p` is the parsed port number (an int) or
`None`. -/
def pyStrOptInt : Option Int → String
  | none => "None"
  | some n => toString n

/-- Drop leading whitespace characters. -/
def dropLeadingWs : List Char → List Char
  | [] => []
  | c :: rest => if c.isWhitespace then dropLeadingWs rest else c :: rest

/-- Strip leading and trailing whitespace (what `int(...)` tolerates). -/
def stripWs (cs : List Char) : List Char :=
  ((dropLeadingWs ((dropLeadingWs cs).reverse)).reverse)

/-- Split off an optional leading sign; returns (negative?, rest). -/
def signSplit : List Char → Bool × List Char
  | '-' :: rest => (true, rest)
  | '+' :: rest => (false, rest)
  | cs => (false, cs)

/-- Value of a decimal digit run; `none` when empty or non-digit. -/
def decNatAux : List Char → Nat → Option Nat
  | [], acc => some acc
  | c :: rest, acc =>
    if c.isDigit then decNatAux rest (acc * 10 + (c.toNat - 48)) else none

/-- Decimal digits to a number, requiring at least one digit. -/
def decNat? : List Char → Option Nat
  | [] => none
  | cs => decNatAux cs 0

/-- Value of one hexadecimal digit. -/
def hexDigitVal? (c : Char) : Option Nat :=
  if c.isDigit then some (c.toNat - 48)
  else if 'a' ≤ c && c ≤ 'f' then some (c.toNat - 87)
  else if 'A' ≤ c && c ≤ 'F' then some (c.toNat - 55)
  else none

/-- Value of a hexadecimal digit run. -/
def hexNatAux : List Char → Nat → Option Nat
  | [], acc => some acc
  | c :: rest, acc =>
    match hexDigitVal? c with
    | some d => hexNatAux rest (acc * 16 + d)
    | none => none

/-- Hexadecimal digits to a number, requiring at least one digit. -/
def hexNat? : List Char → Option Nat
  | [] => none
  | cs => hexNatAux cs 0

/-- Python `int(v)` on an `XVal`: parses a decimal string (with optional
surrounding whitespace and sign, `ValueError` otherwise); a dict or list
argument raises `TypeError`. -/
def pyInt : XVal → Except PErr Int
  | XVal.s t =>
    let p := signSplit (stripWs t.toList)
    match decNat? p.2 with
    | some n => Except.ok (if p.1 then -(n : Int) else (n : Int))
    | none => Except.error PErr.valueError
  | _ => Except.error PErr.typeError

/-- Drop one optional `0x` / `0X` prefix (allowed by `int(s, 16)`). -/
def dropHexPrefix : List Char → List Char
  | '0' :: 'x' :: rest => rest
  | '0' :: 'X' :: rest => rest
  | cs => cs

/-- Python `int(t, 16)`: optional whitespace, sign and `0x` prefix, then
hexadecimal digits; `ValueError` otherwise. -/
def pyIntHex (t : String) : Except PErr Int :=
  let p := signSplit (stripWs t.toList)
  match hexNat? (dropHexPrefix p.2) with
  | some n => Except.ok (if p.1 then -(n : Int) else (n : Int))
  | none => Except.error PErr.valueError

/-- Python `t.split()` (no argument): split on whitespace runs, no empty
pieces. -/
def splitWsAux : List Char → List Char → List String
  | [], acc => if acc.isEmpty then [] else [String.mk acc.reverse]
  | c :: rest, acc =>
    if c.isWhitespace then
      if acc.isEmpty then splitWsAux rest []
      else String.mk acc.reverse :: splitWsAux rest []
    else splitWsAux rest (c :: acc)

/-- Python `t.split()` on a string. -/
def pySplitWs (t : String) : List String := splitWsAux t.toList []

/-- Python `" ".join(xs)` on a list of strings. -/
def joinSpace : List String → String
  | [] => ""
  | [x] => x
  | x :: rest => x ++ " " ++ joinSpace rest

/-- One `modbus_device_final` dict as built at src/code/modbus.py lines
177–186.  The comprehension at line 186 drops every `None`-valued entry,
which the `Option` fields embed (`none` = entry absent).  `available`,
`identifier` and `name` can never be `None` there, so they are plain
fields. -/
structure Device where
  interface : Option String
  port : Option Int
  available : Bool
  classes : Option (List String)
  identifier : String
  vendor : Option XVal
  name : String

/-- The `modbus_device_base` dict of src/code/modbus.py lines 154–158. -/
structure DeviceBase where
  interface : Option String
  port : Option Int
  available : Bool

/-- The slave-attribute loop of src/code/modbus.py lines 167–176: walks
`elements_list` updating `classes` and `device_identification` (both
start as `None`).  The unrecognized-key branch at lines 175–176 executes
`logging.warning("...").format(...)`: `logging.warning` returns `None`,
so the `.format` call raises `AttributeError` (the misplaced closing
parenthesis in the source). -/
def processElems :
    Option (List String) × Option XVal → List XVal →
    Except PErr (Option (List String) × Option XVal)
  | acc, [] => Except.ok acc
  | acc, e :: rest => do
    let k ← e.subscript "@key"
    if k.eqStr "Slave ID data" then do
      let t ← e.pyGet "#text"
      processElems (some [pyStrOpt t], acc.2) rest
    else if k.eqStr "Device identification" then do
      let t ← e.pyGet "#text"
      processElems (acc.1, t) rest
    else
      Except.error PErr.attributeError

/-- One iteration of the `for address in output` loop at src/code/modbus.py
lines 164–191: extract the slave id from the table key (`IndexError` when
the key has no second token, `ValueError` when that token is not
hexadecimal), walk the `elem` list, then build the merged device dict.
`protoRaw` is `port.get('@protocol')`, evaluated inside the `name` format
call at line 181; it is passed in precomputed, which is observationally
identical because `port` is known to be a dict once this loop is reached.
Formatting the name evaluates `' '.join(classes)`, which raises
`TypeError` when no "Slave ID data" attribute was seen (`classes` still
`None`). -/
def processAddress (base : DeviceBase) (protoRaw : Option XVal) (address : XVal) :
    Except PErr Device := do
  let keyv ← address.subscript "@key"
  let keystr ← match keyv with
    | XVal.s t => Except.ok t
    | _ => Except.error PErr.attributeError
  let second ← match (pySplitWs keystr).get? 1 with
    | some x => Except.ok x
    | none => Except.error PErr.indexError
  let slaveId ← pyIntHex second
  let elementsList ← address.subscript "elem"
  let acc ← processElems (none, none) elementsList.pyIter
  let joined ← match acc.1 with
    | some cs => Except.ok (joinSpace cs)
    | none => Except.error PErr.typeError
  let name := "Modbus " ++ pyStrOptInt base.port ++ "/" ++ pyStrOpt protoRaw
      ++ " " ++ joined ++ " - " ++ toString slaveId
  Except.ok
    { interface := base.interface, port := base.port, available := base.available,
      classes := acc.1, identifier := toString slaveId, vendor := acc.2, name := name }

/-- The slave tables of one port, in order (the body of the loop at
src/code/modbus.py lines 164–191, appending to `modbus`). -/
def processAddresses (base : DeviceBase) (protoRaw : Option XVal) :
    List XVal → Except PErr (List Device)
  | [] => Except.ok []
  | a :: rest => do
    let d ← processAddress base protoRaw a
    let ds ← processAddresses base protoRaw rest
    Except.ok (d :: ds)

/-- One iteration of the `for port in all_ports` loop at src/code/modbus.py
lines 150–191.  Ports whose detected service is not "modbus" contribute
nothing (`continue`); otherwise the base dict, the `script`/`table`
lookup (with the single-table-to-list normalization at lines 161–162) and
the per-slave loop run, with any exception propagating (the loop body is
outside the `try` of lines 141–148). -/
def processPort (port : XVal) : Except PErr (List Device) := do
  if !(port.hasMember "service") then Except.ok [] else do
  let svc ← port.subscript "service"
  let nm ← svc.subscript "@name"
  if !(nm.eqStr "modbus") then Except.ok [] else do
  let iface ← if port.hasMember "@protocol" then do
      let p ← port.subscript "@protocol"
      let u ← p.pyUpper
      Except.ok (some u)
    else Except.ok (none : Option String)
  let pnum ← if port.hasMember "@portid" then do
      let v ← port.subscript "@portid"
      let n ← pyInt v
      Except.ok (some n)
    else Except.ok (none : Option Int)
  let st ← port.subscript "state"
  let stv ← st.subscript "@state"
  let base : DeviceBase :=
    { interface := iface, port := pnum, available := stv.eqStr "open" }
  let script ← port.subscript "script"
  let table ← script.subscript "table"
  let output := match table with
    | XVal.list items => items
    | v => [v]
  let protoRaw ← port.pyGet "@protocol"
  processAddresses base protoRaw output

/-- All ports of the document in order, concatenating each port's
devices. -/
def processPorts : List XVal → Except PErr (List Device)
  | [] => Except.ok []
  | p :: rest => do
    let ds ← processPort p
    let rest' ← processPorts rest
    Except.ok (ds ++ rest')

/-- The guarded path lookup
`namp_odict['nmaprun']['host']['ports']['port']` of src/code/modbus.py
line 142 (the only statement inside the `try`). -/
def portPathLookup (doc : XVal) : Except PErr XVal := do
  let a ← doc.subscript "nmaprun"
  let b ← a.subscript "host"
  let c ← b.subscript "ports"
  c.subscript "port"

/-- Embeds `parse_modbus_peripherals` (src/code/modbus.py lines
122–193) on the already-deserialized document.  The `except KeyError` and
bare `except` handlers at lines 143–148 both return the empty `modbus`
list, so any failure of the path lookup yields `ok []`; every exception
raised by the port loop itself is uncaught and propagates
(`Except.error`). -/
def parse_modbus_peripherals (doc : XVal) : Except PErr (List Device) :=
  match portPathLookup doc with
  | Except.error _ => Except.ok []
  | Except.ok allPorts => processPorts allPorts.pyIter

/-- Embeds `"{}.{}.{}".format(port, interface, identifier)` at
src/code/modbus.py line 244, with the `per.get(...)` defaults of lines
240–242: missing port prints as "nullport", missing interface as
"nullinterface". -/
def filename_termination (per : Device) : String :=
  (match per.port with | some p => toString p | none => "nullport") ++ "." ++
  (match per.interface with | some i => i | none => "nullinterface") ++ "." ++
  per.identifier

/-- Embeds `full_filename` of src/code/modbus.py lines 236 and 245:
`modbus_files_basepath` is `peripherals_path + "/modbus."` and the full
name appends the termination. -/
def full_filename (peripherals_path : String) (per : Device) : String :=
  peripherals_path ++ "/modbus." ++ filename_termination per

/-- The registry-facing reconciliation key of one peripheral: the local
file naming convention `modbus.{port}.{interface}.{identifier}` stated at
src/code/modbus.py lines 230–231 (i.e. `full_filename` without the
directory part). -/
def modbus_file_key (per : Device) : String :=
  "modbus." ++ filename_termination per

/-- Outcome of reading one local bookkeeping file (the `try` at
src/code/modbus.py lines 267–276): the stored Nuvla resource id, a
`FileNotFoundError`, or any other exception. -/
inductive ReadRes
  | ok (rid : String)
  | fileNotFound
  | otherErr
deriving DecidableEq, Repr

/-- Outcome of one `api._cimi_delete` call (the `try` at
src/code/modbus.py lines 278–296): success, a
`requests.exceptions.ConnectionError`, a `NuvlaError` with status 404, a
`NuvlaError` with another status, or any other exception (which triggers
the `_cimi_put` edit fallback). -/
inductive DelRes
  | ok
  | connErr
  | nuvla404
  | nuvlaOther
  | otherExc
deriving DecidableEq, Repr

/-- The first loop of `manage_modbus_peripherals` (src/code/modbus.py
lines 239–262): for each discovered peripheral, if its full filename is
in `local_modbus_files` the file is removed from the working list
(`list.remove`, first occurrence) and nothing is posted; otherwise one
`_cimi_post` create is issued (success merely writes the bookkeeping
file; a failure is logged — either way the working list is unchanged).
Returns (create operations issued, leftover files). -/
def manage_create_loop (peripherals_path : String) :
    List Device → List String → List String × List String
  | [], files => ([], files)
  | per :: rest, files =>
    let fn := full_filename peripherals_path per
    if files.contains fn then
      manage_create_loop peripherals_path rest (files.erase fn)
    else
      let r := manage_create_loop peripherals_path rest files
      (fn :: r.1, r.2)

/-- The second loop of `manage_modbus_peripherals` (src/code/modbus.py
lines 264–303): each leftover file is read back (read failures skip the
entry and continue), then `api._cimi_delete` is attempted.  A
`ConnectionError` logs and `return`s — aborting the remaining entries; a
404, another `NuvlaError`, or any other exception (after the edit
fallback) all continue with the next entry.  Returns the resource ids
for which a delete call was issued, in order. -/
def manage_delete_loop (read_file : String → ReadRes)
    (cimi_delete : String → DelRes) : List String → List String
  | [] => []
  | f :: rest =>
    match read_file f with
    | ReadRes.fileNotFound => manage_delete_loop read_file cimi_delete rest
    | ReadRes.otherErr => manage_delete_loop read_file cimi_delete rest
    | ReadRes.ok rid =>
      match cimi_delete f with
      | DelRes.connErr => [rid]
      | _ => rid :: manage_delete_loop read_file cimi_delete rest

/-- The create and delete operations one reconciliation run issues. -/
structure ManageResult where
  creates : List String
  deletes : List String
deriving DecidableEq, Repr

/-- Embeds `manage_modbus_peripherals` (src/code/modbus.py lines
221–303) as a pure function: `local_modbus_files` is the
`glob.glob(modbus_files_basepath + '*')` snapshot, and the two oracles
give the outcome of each file read and each `_cimi_delete` call. -/
def manage_modbus_peripherals (peripherals_path : String)
    (peripherals : List Device) (local_modbus_files : List String)
    (read_file : String → ReadRes) (cimi_delete : String → DelRes) :
    ManageResult :=
  let r := manage_create_loop peripherals_path peripherals local_modbus_files
  ManageResult.mk r.1 (manage_delete_loop read_file cimi_delete r.2)

/-- The inter-cycle wait of the `__main__` loop (src/code/modbus.py line
357): `e.wait(timeout=90)` on a `threading.Event` returns immediately
(0 time units) when the event is set during iteration `n`, and only
after the full 90-unit timeout otherwise. -/
def main_loop_wait (event_set : Nat → Bool) (n : Nat) : Nat :=
  if event_set n then 0 else 90

/-- Whether iteration `n` of the `__main__` loop (src/code/modbus.py
lines 348–357) starts a scan/reconcile cycle.  The loop is
`while True:` with an unconditional body and no `break` and no test of
the event, so every iteration starts a cycle regardless of the event
state. -/
def main_loop_runs_cycle (_event_set : Nat → Bool) (_n : Nat) : Bool :=
  true

/-- The "Slave ID data" attribute element of the sample scan document
(spec §8, sample end-to-end). -/
def sampleElemSlave : XVal :=
  XVal.dict [("@key", XVal.s "Slave ID data"), ("#text", XVal.s "PM710PowerMeter")]

/-- The "Device identification" attribute element of the sample scan
document. -/
def sampleElemVendor : XVal :=
  XVal.dict [("@key", XVal.s "Device identification"),
             ("#text", XVal.s "Schneider Electric PM710 v03.110")]

/-- The one slave table of the sample scan document, keyed "sid 0x64". -/
def sampleTable : XVal :=
  XVal.dict [("@key", XVal.s "sid 0x64"),
             ("elem", XVal.list [sampleElemSlave, sampleElemVendor])]

/-- The sample 502/tcp port entry: state open, service "modbus", one
slave table under the modbus-discover script output. -/
def samplePort : XVal :=
  XVal.dict [("@protocol", XVal.s "tcp"),
             ("@portid", XVal.s "502"),
             ("state", XVal.dict [("@state", XVal.s "open")]),
             ("service", XVal.dict [("@name", XVal.s "modbus")]),
             ("script", XVal.dict [("@id", XVal.s "modbus-discover"),
                                   ("table", sampleTable)])]

/-- A non-modbus port entry (22/tcp ssh) alongside the sample port, so
that the deserialized port list is a genuine list. -/
def sampleOtherPort : XVal :=
  XVal.dict [("@protocol", XVal.s "tcp"),
             ("@portid", XVal.s "22"),
             ("state", XVal.dict [("@state", XVal.s "open")]),
             ("service", XVal.dict [("@name", XVal.s "ssh")])]

/-- The sample scan document of spec §8: port 502/tcp open with service
"modbus" and one slave table keyed "sid 0x64". -/
def sampleDoc : XVal :=
  XVal.dict [("nmaprun", XVal.dict [("host", XVal.dict [("ports",
    XVal.dict [("port", XVal.list [sampleOtherPort, samplePort])])])])]

/-- The Peripheral record the sample document is expected to yield. -/
def sampleDevice : Device :=
  { interface := some "TCP", port := some 502, available := true,
    classes := some ["PM710PowerMeter"], identifier := "100",
    vendor := some (XVal.s "Schneider Electric PM710 v03.110"),
    name := "Modbus 502/tcp PM710PowerMeter - 100" }

/-- Malformed port entry: a `service` object with no `@name` attribute.
The path lookup succeeds, so `port['service']['@name']` at line 151 runs
outside any handler and raises `KeyError`. -/
def serviceNoNamePort : XVal :=
  XVal.dict [("@protocol", XVal.s "tcp"),
             ("@portid", XVal.s "502"),
             ("service", XVal.dict [("@product", XVal.s "unknown")])]

/-- Scan document containing only the `service`-without-`@name` port. -/
def serviceNoNameDoc : XVal :=
  XVal.dict [("nmaprun", XVal.dict [("host", XVal.dict [("ports",
    XVal.dict [("port", XVal.list [serviceNoNamePort])])])])]

/-- Malformed modbus port entry with no `state` object: lines 154–158
run outside any handler and `port['state']` raises `KeyError`. -/
def stateMissingPort : XVal :=
  XVal.dict [("@protocol", XVal.s "tcp"),
             ("@portid", XVal.s "502"),
             ("service", XVal.dict [("@name", XVal.s "modbus")])]

/-- Scan document containing only the `state`-less modbus port. -/
def stateMissingDoc : XVal :=
  XVal.dict [("nmaprun", XVal.dict [("host", XVal.dict [("ports",
    XVal.dict [("port", XVal.list [stateMissingPort])])])])]

/-- A slave attribute element with the given key and text. -/
def mkElem (k v : String) : XVal :=
  XVal.dict [("@key", XVal.s k), ("#text", XVal.s v)]

/-- The sample port with its slave tables replaced. -/
def portWithTables (tables : XVal) : XVal :=
  XVal.dict [("@protocol", XVal.s "tcp"),
             ("@portid", XVal.s "502"),
             ("state", XVal.dict [("@state", XVal.s "open")]),
             ("service", XVal.dict [("@name", XVal.s "modbus")]),
             ("script", XVal.dict [("@id", XVal.s "modbus-discover"),
                                   ("table", tables)])]

/-- A scan document with one modbus port carrying the given tables. -/
def docWithTables (tables : XVal) : XVal :=
  XVal.dict [("nmaprun", XVal.dict [("host", XVal.dict [("ports",
    XVal.dict [("port", XVal.list [portWithTables tables])])])])]

/-- The scan document of the docstring example (src/code/modbus.py lines
127–134): slave 0x64 answers normally, slave 0x96 reports only an
`error` attribute (here alongside a vendor attribute so the element list
is a genuine list).  The `error` key is neither "Slave ID data" nor
"Device identification". -/
def errorKeyDoc : XVal :=
  docWithTables (XVal.list
    [sampleTable,
     XVal.dict [("@key", XVal.s "sid 0x96"),
                ("elem", XVal.list
                  [mkElem "error" "GATEWAY TARGET DEVICE FAILED TO RESPONSE",
                   mkElem "Device identification" "Schneider Electric PM710 v03.110"])]])

/-- Scan document whose first slave table key, "sid", has no second
token to hex-parse, followed by a perfectly good slave table. -/
def badSidTokenDoc : XVal :=
  docWithTables (XVal.list
    [XVal.dict [("@key", XVal.s "sid"),
                ("elem", XVal.list [sampleElemSlave, sampleElemVendor])],
     sampleTable])

/-- Scan document whose first slave table key carries a non-hexadecimal
slave id ("sid 0xZZ"), followed by a good slave table. -/
def badSidHexDoc : XVal :=
  docWithTables (XVal.list
    [XVal.dict [("@key", XVal.s "sid 0xZZ"),
                ("elem", XVal.list [sampleElemSlave, sampleElemVendor])],
     sampleTable])

/-- Scan document whose slave table carries two "Slave ID data"
attributes with different payloads ("first", then "second"). -/
def dupSlaveDataDoc : XVal :=
  docWithTables
    (XVal.dict [("@key", XVal.s "sid 0x64"),
                ("elem", XVal.list
                  [mkElem "Slave ID data" "first",
                   mkElem "Slave ID data" "second"])])

/-- The Peripheral the duplicate-attribute document actually yields. -/
def dupSlaveDataDevice : Device :=
  { interface := some "TCP", port := some 502, available := true,
    classes := some ["second"], identifier := "100",
    vendor := none,
    name := "Modbus 502/tcp second - 100" }

/-- A recognized attribute element: "Slave ID data" when the flag is
true, "Device identification" otherwise. -/
def mkRecogElem (p : Bool × String) : XVal :=
  mkElem (if p.1 then "Slave ID data" else "Device identification") p.2

/-- The `classes` component of a `processElems` run, `none` when the run
raised. -/
def elemsClasses (r : Except PErr (Option (List String) × Option XVal)) :
    Option (Option (List String)) :=
  match r with
  | Except.ok a => some a.1
  | Except.error _ => none

/-- Scan document whose ports section deserialized to a single port
object (what `xmltodict` produces when exactly one port element is
present) instead of a list of port objects; the five fields carry
arbitrary values. -/
def singlePortDoc (proto portid st svc script : XVal) : XVal :=
  XVal.dict [("nmaprun", XVal.dict [("host", XVal.dict [("ports",
    XVal.dict [("port",
      XVal.dict [("@protocol", proto), ("@portid", portid), ("state", st),
                 ("service", svc), ("script", script)])])])])]

/-- When the bookkeeping files are exactly a permutation of the
discovered peripherals' filenames, the create loop posts nothing and
leaves no files over. -/
theorem manage_create_loop_of_perm (peripherals_path : String)
    (ps : List Device) (files : List String)
    (h : files.Perm (ps.map (full_filename peripherals_path))) :
    manage_create_loop peripherals_path ps files = ([], []) := by
  induction ps generalizing files with
  | nil =>
    have hnil : files = [] := List.perm_nil.mp (by simpa using h)
    subst hnil
    rfl
  | cons p rest ih =>
    have hmem : full_filename peripherals_path p ∈ files :=
      h.mem_iff.mpr (by simp)
    have hcont : files.contains (full_filename peripherals_path p) = true :=
      List.elem_iff.mpr hmem
    have herase : (files.erase (full_filename peripherals_path p)).Perm
        (rest.map (full_filename peripherals_path)) := by
      have := h.erase (full_filename peripherals_path p)
      simpa [List.erase_cons_head] using this
    have hstep : manage_create_loop peripherals_path (p :: rest) files
        = manage_create_loop peripherals_path rest
            (files.erase (full_filename peripherals_path p)) := by
      simp [manage_create_loop, hcont]
      intro hn
      exact absurd hmem hn
    rw [hstep, ih _ herase]

/-- When no delete call fails with a `ConnectionError`, the delete loop
reaches every leftover file: it issues exactly one delete per
successfully-read entry, in order. -/
theorem manage_delete_loop_no_connErr (read_file : String → ReadRes)
    (cimi_delete : String → DelRes) (fs : List String)
    (h : ∀ f ∈ fs, cimi_delete f ≠ DelRes.connErr) :
    manage_delete_loop read_file cimi_delete fs
      = fs.filterMap (fun f => match read_file f with
          | ReadRes.ok rid => some rid
          | _ => none) := by
  induction fs with
  | nil => rfl
  | cons f rest ih =>
    have hf : cimi_delete f ≠ DelRes.connErr := h f (by simp)
    have hrest : ∀ g ∈ rest, cimi_delete g ≠ DelRes.connErr :=
      fun g hg => h g (by simp [hg])
    cases hr : read_file f with
    | ok rid =>
      cases hd : cimi_delete f with
      | connErr => exact absurd hd hf
      | ok => simp [manage_delete_loop, hr, hd, List.filterMap_cons, ih hrest]
      | nuvla404 => simp [manage_delete_loop, hr, hd, List.filterMap_cons, ih hrest]
      | nuvlaOther => simp [manage_delete_loop, hr, hd, List.filterMap_cons, ih hrest]
      | otherExc => simp [manage_delete_loop, hr, hd, List.filterMap_cons, ih hrest]
    | fileNotFound => simp [manage_delete_loop, hr, List.filterMap_cons, ih hrest]
    | otherErr => simp [manage_delete_loop, hr, List.filterMap_cons, ih hrest]

/-- Attribute elements carrying only "Device identification" keys leave
the `classes` accumulator untouched. -/
theorem processElems_devid_only (qs : List String) :
    ∀ acc : Option (List String) × Option XVal,
      elemsClasses (processElems acc (qs.map (fun u => mkRecogElem (false, u))))
        = some acc.1 := by
  induction qs with
  | nil => intro acc; rfl
  | cons q rest ih => intro acc; exact ih (acc.1, some (XVal.s q))

/-- C1: for the sample scan document (port 502/tcp open, service
"modbus", one slave table keyed "sid 0x64" with the PM710 attributes),
the parse pipeline produces exactly one Peripheral record with
interface "TCP", port 502, available true, classes ["PM710PowerMeter"],
vendor "Schneider Electric PM710 v03.110", name
"Modbus 502/tcp PM710PowerMeter - 100", raw identifier "100" — and the
reconciliation identifier the reconciler derives for it (the
`modbus.{port}.{interface}.{identifier}` file key) is
"modbus.502.TCP.100". -/
theorem c1_sample_end_to_end :
    parse_modbus_peripherals sampleDoc = Except.ok [sampleDevice] ∧
    modbus_file_key sampleDevice = "modbus.502.TCP.100" :=
  ⟨rfl, rfl⟩

/-- C2: reconciliation is idempotent at steady state — when the recorded
identifiers (the local `modbus.*` bookkeeping filenames) are exactly the
derived filenames of the observed peripherals, one reconciliation run
issues zero creates and zero deletes. -/
theorem c2_steady_state_noop (peripherals_path : String)
    (peripherals : List Device) (local_modbus_files : List String)
    (read_file : String → ReadRes) (cimi_delete : String → DelRes)
    (h : local_modbus_files.Perm (peripherals.map (full_filename peripherals_path))) :
    manage_modbus_peripherals peripherals_path peripherals local_modbus_files
      read_file cimi_delete = ManageResult.mk [] [] := by
  show ManageResult.mk
      (manage_create_loop peripherals_path peripherals local_modbus_files).1
      (manage_delete_loop read_file cimi_delete
        (manage_create_loop peripherals_path peripherals local_modbus_files).2)
      = ManageResult.mk [] []
  rw [manage_create_loop_of_perm peripherals_path peripherals local_modbus_files h]
  rfl

/-- Witness for C2 at a concrete steady state: the sample device against
its own bookkeeping file. -/
theorem c2_steady_state_noop_witness :
    manage_modbus_peripherals "/srv/nuvlabox/shared/.peripherals" [sampleDevice]
      [full_filename "/srv/nuvlabox/shared/.peripherals" sampleDevice]
      (fun _ => ReadRes.ok "nuvlabox-peripheral/aaa") (fun _ => DelRes.ok)
      = ManageResult.mk [] [] :=
  c2_steady_state_noop _ _ _ _ _ (List.Perm.refl _)

/-- C3: with observed set containing exactly device A and bookkeeping
state containing A's file plus one other modbus-namespace file, one
reconciliation run issues zero creates and exactly one delete, targeting
the resource id stored in the other file. -/
theorem c3_vanished_device_delete (peripherals_path fC rid : String)
    (A : Device) (read_file : String → ReadRes) (cimi_delete : String → DelRes)
    (_hAC : fC ≠ full_filename peripherals_path A)
    (hread : read_file fC = ReadRes.ok rid)
    (hdel : cimi_delete fC = DelRes.ok) :
    manage_modbus_peripherals peripherals_path [A]
      [full_filename peripherals_path A, fC] read_file cimi_delete
      = ManageResult.mk [] [rid] := by
  show ManageResult.mk
      (manage_create_loop peripherals_path [A] [full_filename peripherals_path A, fC]).1
      (manage_delete_loop read_file cimi_delete
        (manage_create_loop peripherals_path [A] [full_filename peripherals_path A, fC]).2)
      = ManageResult.mk [] [rid]
  have h1 : manage_create_loop peripherals_path [A]
      [full_filename peripherals_path A, fC] = ([], [fC]) := by
    simp [manage_create_loop, List.erase_cons_head]
  rw [h1]
  simp [manage_delete_loop, hread, hdel]

/-- Witness for C3: the sample device plus one stale file. -/
theorem c3_vanished_device_delete_witness :
    manage_modbus_peripherals "/srv/nuvlabox/shared/.peripherals" [sampleDevice]
      [full_filename "/srv/nuvlabox/shared/.peripherals" sampleDevice,
       "/srv/nuvlabox/shared/.peripherals/modbus.1502.TCP.5"]
      (fun _ => ReadRes.ok "nuvlabox-peripheral/bbb") (fun _ => DelRes.ok)
      = ManageResult.mk [] ["nuvlabox-peripheral/bbb"] :=
  c3_vanished_device_delete _ _ _ _ _ _ (by decide) rfl rfl

/-- C4 counterexample: two stale bookkeeping files, both readable; the
first delete call fails with a `ConnectionError`.  The source `return`s
inside the delete loop (src/code/modbus.py line 282), so the second
stale entry's delete is never attempted — refuting "failure of one
delete never aborts the remaining sibling operations ... including
network/connection failure". -/
theorem c4_counterexample :
    (manage_modbus_peripherals "/srv/nuvlabox/shared/.peripherals" []
      ["/srv/nuvlabox/shared/.peripherals/modbus.502.TCP.100",
       "/srv/nuvlabox/shared/.peripherals/modbus.503.TCP.101"]
      (fun f => if f == "/srv/nuvlabox/shared/.peripherals/modbus.502.TCP.100"
                then ReadRes.ok "nuvlabox-peripheral/one"
                else ReadRes.ok "nuvlabox-peripheral/two")
      (fun f => if f == "/srv/nuvlabox/shared/.peripherals/modbus.502.TCP.100"
                then DelRes.connErr else DelRes.ok)).deletes
      = ["nuvlabox-peripheral/one"] ∧
    "nuvlabox-peripheral/two" ∉
      (manage_modbus_peripherals "/srv/nuvlabox/shared/.peripherals" []
        ["/srv/nuvlabox/shared/.peripherals/modbus.502.TCP.100",
         "/srv/nuvlabox/shared/.peripherals/modbus.503.TCP.101"]
        (fun f => if f == "/srv/nuvlabox/shared/.peripherals/modbus.502.TCP.100"
                  then ReadRes.ok "nuvlabox-peripheral/one"
                  else ReadRes.ok "nuvlabox-peripheral/two")
        (fun f => if f == "/srv/nuvlabox/shared/.peripherals/modbus.502.TCP.100"
                  then DelRes.connErr else DelRes.ok)).deletes := by
  exact ⟨rfl, by decide⟩

/-- C4 (amended): a delete failure other than a `ConnectionError` never
aborts the remaining sibling deletes — when no delete call raises a
`ConnectionError`, the reconciler attempts one delete for every
successfully-read stale entry (a `ConnectionError`, by contrast, makes
the loop return early, as the counterexample shows). -/
theorem c4_delete_isolation (peripherals_path : String)
    (peripherals : List Device) (local_modbus_files : List String)
    (read_file : String → ReadRes) (cimi_delete : String → DelRes)
    (h : ∀ f, cimi_delete f ≠ DelRes.connErr) :
    (manage_modbus_peripherals peripherals_path peripherals local_modbus_files
        read_file cimi_delete).deletes
      = (manage_create_loop peripherals_path peripherals local_modbus_files).2.filterMap
          (fun f => match read_file f with
            | ReadRes.ok rid => some rid
            | _ => none) := by
  show manage_delete_loop read_file cimi_delete
      (manage_create_loop peripherals_path peripherals local_modbus_files).2 = _
  exact manage_delete_loop_no_connErr read_file cimi_delete _ (fun f _ => h f)

/-- Witness for C4 (amended): one unreadable stale file and one whose
delete fails with a non-connection Nuvla error; both entries are still
reached and the readable one gets its delete attempted. -/
theorem c4_delete_isolation_witness :
    (manage_modbus_peripherals "/srv/nuvlabox/shared/.peripherals" []
      ["/srv/nuvlabox/shared/.peripherals/modbus.502.TCP.100",
       "/srv/nuvlabox/shared/.peripherals/modbus.503.TCP.101"]
      (fun f => if f == "/srv/nuvlabox/shared/.peripherals/modbus.502.TCP.100"
                then ReadRes.otherErr
                else ReadRes.ok "nuvlabox-peripheral/two")
      (fun _ => DelRes.nuvlaOther)).deletes
      = ["nuvlabox-peripheral/two"] :=
  c4_delete_isolation _ _ _ _ _ (fun _ => by decide)

/-- C5 counterexample: a structurally anomalous document whose anomaly
is not in the host/ports/port path — the port entry's `service` object
has no `@name`.  The parser raises (`KeyError` at line 151, outside the
`try`), it does not return zero findings. -/
theorem c5_counterexample :
    parse_modbus_peripherals serviceNoNameDoc = Except.error PErr.keyError :=
  rfl

/-- C5 (amended): only anomalies in resolving the
`nmaprun → host → ports → port` path are swallowed, yielding zero
findings; an anomaly inside a port entry (here: a modbus port with no
`state` object) propagates as an uncaught exception out of the parse
stage. -/
theorem c5_parse_anomaly_scope :
    (∀ (doc : XVal) (e : PErr), portPathLookup doc = Except.error e →
      parse_modbus_peripherals doc = Except.ok []) ∧
    parse_modbus_peripherals stateMissingDoc = Except.error PErr.keyError := by
  refine ⟨?_, rfl⟩
  intro doc e h
  unfold parse_modbus_peripherals
  rw [h]

/-- Witness for C5 (amended): a document that is a bare string fails the
path lookup with a `TypeError` and the parser returns zero findings. -/
theorem c5_parse_anomaly_scope_witness :
    parse_modbus_peripherals (XVal.s "not an nmap document") = Except.ok [] :=
  c5_parse_anomaly_scope.1 (XVal.s "not an nmap document") PErr.typeError rfl

/-- C6: evaluating the parser on the code's own docstring example — a
slave whose attribute list starts with the unrecognized key "error" —
does not log a warning and continue: it raises `AttributeError`,
because lines 175–176 call `.format(...)` on the `None` returned by
`logging.warning(...)` (a misplaced closing parenthesis), so neither
this slave's siblings nor the already-parsed good slave survive. -/
theorem c6_unrecognized_attribute_crashes :
    parse_modbus_peripherals errorKeyDoc = Except.error PErr.attributeError :=
  rfl

/-- C7 counterexample: a slave table whose key "sid" has no parsable hex
slave identifier, followed by a perfectly good slave table.  The parser
raises `IndexError` (line 165, uncaught); it does not skip the bad
finding, and the remaining good finding is not emitted. -/
theorem c7_counterexample :
    parse_modbus_peripherals badSidTokenDoc = Except.error PErr.indexError ∧
    parse_modbus_peripherals badSidTokenDoc ≠ Except.ok [sampleDevice] := by
  refine ⟨rfl, ?_⟩
  intro hcontra
  rw [show parse_modbus_peripherals badSidTokenDoc = Except.error PErr.indexError
      from rfl] at hcontra
  exact Except.noConfusion hcontra

/-- C7 (amended): a slave table with no parsable hex slave id makes the
parse stage raise (`IndexError` when the key has no second token,
`ValueError` when the token is not hexadecimal): the finding never
becomes a Peripheral and nothing from that document reaches the
reconciler — but the remaining findings are lost with it rather than
emitted. -/
theorem c7_missing_slave_id_raises :
    parse_modbus_peripherals badSidTokenDoc = Except.error PErr.indexError ∧
    parse_modbus_peripherals badSidHexDoc = Except.error PErr.valueError :=
  ⟨rfl, rfl⟩

/-- C8 counterexample: a slave table with two "Slave ID data" attributes
("first", then "second").  The emitted Peripheral carries the LAST
value — classes ["second"], and the composed name uses "second" — not
the value of the first matching attribute. -/
theorem c8_counterexample :
    parse_modbus_peripherals dupSlaveDataDoc = Except.ok [dupSlaveDataDevice] ∧
    dupSlaveDataDevice.classes ≠ some ["first"] := by
  exact ⟨rfl, by decide⟩

/-- C8 (amended): normalization is deterministic (the embedded parse is
a function of the document alone), and for duplicate keys the LAST
matching attribute wins: whatever recognized attributes precede it and
whatever "Device identification" attributes follow it, a final
"Slave ID data" attribute with payload `v` always yields classes
`[v]`. -/
theorem c8_last_slave_data_wins (ps : List (Bool × String)) :
    ∀ (acc : Option (List String) × Option XVal) (v : String) (qs : List String),
      elemsClasses (processElems acc
        (ps.map mkRecogElem
          ++ mkElem "Slave ID data" v
            :: qs.map (fun u => mkRecogElem (false, u))))
        = some (some [v]) := by
  induction ps with
  | nil =>
    intro acc v qs
    exact processElems_devid_only qs (some [v], acc.2)
  | cons p rest ih =>
    intro acc v qs
    cases p with
    | mk b t =>
      cases b with
      | false => exact ih (acc.1, some (XVal.s t)) v qs
      | true => exact ih (some [t], acc.2) v qs

/-- C9 counterexample: with the cancellation event set from the very
first iteration, the inter-cycle wait does return immediately, but
iteration 1 — after cancellation was requested — still starts a new
scan/reconcile cycle, refuting "no new scan/reconcile cycle is ever
started afterwards". -/
theorem c9_counterexample :
    main_loop_wait (fun _ => true) 0 = 0 ∧
    main_loop_runs_cycle (fun _ => true) 1 = true :=
  ⟨rfl, rfl⟩

/-- C9 (amended): once the event is set, `e.wait(timeout=90)` aborts
immediately (the wait lasts 0 rather than 90 units), but the
`while True` loop starts the next cycle unconditionally — cancellation
never prevents further cycles (and nothing in the program ever sets the
event). -/
theorem c9_cancellation_behavior (event_set : Nat → Bool) (n : Nat)
    (h : event_set n = true) :
    main_loop_wait event_set n = 0 ∧
    main_loop_runs_cycle event_set (n + 1) = true := by
  refine ⟨?_, rfl⟩
  simp [main_loop_wait, h]

/-- Witness for C9 (amended) at a concrete cancellation point. -/
theorem c9_cancellation_behavior_witness :
    main_loop_wait (fun _ => true) 3 = 0 ∧
    main_loop_runs_cycle (fun _ => true) 4 = true :=
  c9_cancellation_behavior (fun _ => true) 3 rfl

/-- C10: when the ports section deserializes to a single port object
rather than a list (whatever its five standard fields hold), the parser
raises an uncaught `TypeError`: only the per-slave script table gets
the single-object-to-list normalization, so iterating the lone port
dict walks its keys, and the key "service" — a string — gets
subscripted at line 151. -/
theorem c10_single_port_object_raises (proto portid st svc script : XVal) :
    parse_modbus_peripherals (singlePortDoc proto portid st svc script)
      = Except.error PErr.typeError :=
  rfl
